import Mathlib

/-!
Verification development for the spotify-data-retrieval repository.

The repository consists of a cron shell wrapper (`src/run_main.sh`) that
activates a virtual environment, loads a `.env` file and runs the Python
pipeline `main.py`, and a read-side notebook (`src/visualization/common.ipynb`)
that connects to PostgreSQL and executes read-only SQL queries.

The shell wrapper is embedded as a function from an abstract filesystem
configuration to a run result: the exit code, the sequence of file operations
performed on the log file, the environment variables exported from `.env`,
and the python invocations performed.  Every `echo ... >> "$CRON_LOG_FILE"`
of the script is one `FileOp.append` carrying a structured `Entry`;
`Entry.render` gives the exact text the echo appends (echo -e interprets the
backslash escapes and appends a final newline).  `FileOp.truncate` models a
`>` redirection; the script never uses one.
-/

namespace SpotifyETL

/-- The hard-coded `CODE_DIR` of `run_main.sh` (line 4). -/
def CODE_DIR : String := "/Users/dishen/Documents/dishen/atliq/python/spotify-data-retrieval"

/-- One log line appended by `run_main.sh`.  Each constructor corresponds to one
`echo ... >> "$CRON_LOG_FILE"` in the script; timestamps produced by `$(date ...)`
and the captured output of `python3` are carried as data. -/
inductive Entry where
  | startBanner (inner : Bool)
  | dirMissing
  | cdFailed
  | startingRun (ts : String)
  | activating
  | venvMissing
  | envMissing
  | runningFile
  | startingScript (ts : String)
  | pythonOutput (out : String)
  | finishedScript (ts : String)
  | scriptNotFound
  | finishedRun (ts : String)
  | endBanner (inner : Bool)
deriving DecidableEq

/-- The exact text each echo appends to the log file (`echo -e` expands the
escapes and adds a trailing newline; `python3 ... >> log 2>&1` appends the
combined output verbatim). -/
def Entry.render : Entry → String
  | .startBanner false => "\n\n\n--------------------------------------------- CRON START LOGS ---------------------------------------------\n\n"
  | .startBanner true => "\n\n\n --------------------------------------------- CRON START LOGS ---------------------------------------------\n\n"
  | .dirMissing => "Directory " ++ CODE_DIR ++ " does not exist!\n"
  | .cdFailed => "\n\nFailed to navigate to " ++ CODE_DIR ++ "\n"
  | .startingRun ts => "\n\n" ++ ts ++ " - Starting run_main.sh\n"
  | .activating => "\n\nActivating virtual environment: " ++ CODE_DIR ++ "/venv/bin/activate\n"
  | .venvMissing => "\n\nVirtual environment activation script not found at " ++ CODE_DIR ++ "/venv/bin/activate!\n"
  | .envMissing => "\n\n.env file not found in " ++ CODE_DIR ++ "!\n"
  | .runningFile => "Running python file: " ++ CODE_DIR ++ "/main.py\n"
  | .startingScript ts => "\n\n" ++ ts ++ " - Starting main.py\n"
  | .pythonOutput out => out
  | .finishedScript ts => "\n\n" ++ ts ++ " - Finished main.py\n"
  | .scriptNotFound => "\n\n Script " ++ CODE_DIR ++ "/main.py not found!\n"
  | .finishedRun ts => "\n\n" ++ ts ++ " - Finished run_main.sh\n"
  | .endBanner _ => "\n--------------------------------------------- CRON END LOGS --------------------------------------------- \n\n\n\n"

/-- An operation on the log file.  `append` is the `>>` redirection used by
every write of the script; `truncate` would be a `>` redirection, which the
script never performs. -/
inductive FileOp where
  | append (e : Entry)
  | truncate (e : Entry)
deriving DecidableEq

/-- Apply a sequence of file operations to the current contents of the
log file. -/
def applyOps (content : String) : List FileOp → String
  | [] => content
  | FileOp.append e :: rest => applyOps (content ++ e.render) rest
  | FileOp.truncate e :: rest => applyOps e.render rest

/-- Raw split of a character list at its FIRST `=`: the part before it and
the raw remainder after it (a line without `=` yields the whole line on the
left and an empty remainder).  This is only the first step of the embedding
of `IFS='=' read -r key value`; see `readKeyValue` for the delimiter
handling of the last field. -/
def splitFirstEq : List Char → List Char × List Char
  | [] => ([], [])
  | c :: cs =>
    if c = '=' then ([], cs)
    else ((splitFirstEq cs).1.cons c, (splitFirstEq cs).2)

/-- Bash `read` handling of the remainder assigned to the last variable:
when the remainder constitutes exactly one field terminated by a lone
trailing `=` — it ends in `=` and holds no other `=` — that delimiter is
consumed (observed: line `K=a=` gives value `a`, `K==` gives an empty
value); any other remainder is assigned verbatim, a trailing `=` included
(observed: `K=a=b=` gives `a=b=`, `K=a==` gives `a==`). -/
def dropLoneTrailingEq (v : List Char) : List Char :=
  if v.getLast? = some '=' ∧ '=' ∉ v.dropLast then v.dropLast else v

/-- The embedding of `IFS='=' read -r key value` on one line of `.env`
(run_main.sh line 35): `key` is everything before the first `=`, `value` is
the remainder after it with a lone trailing delimiter consumed per
`dropLoneTrailingEq`; interior `=` characters are kept in `value`. -/
def readKeyValue (l : List Char) : List Char × List Char :=
  ((splitFirstEq l).1, dropLoneTrailingEq (splitFirstEq l).2)

/-- Whether a character may start a bash variable name: an ASCII letter or
underscore. -/
def isIdentStart (c : Char) : Bool := c.isAlpha || c = '_'

/-- Whether a character may continue a bash variable name: an ASCII letter,
an ASCII digit, or underscore. -/
def isIdentChar (c : Char) : Bool := c.isAlphanum || c = '_'

/-- Whether bash accepts the key as a variable name: `export "$key=$value"`
fails with a `not a valid identifier` error and sets nothing unless the key
is a non-empty run of ASCII letters, digits and underscores not starting
with a digit (observed: keys `2A`, a key with leading spaces, `A B`, `a.b`
and a non-ASCII key all fail to export; `_B`, `C9x` succeed). -/
def isValidIdentifier : List Char → Bool
  | [] => false
  | c :: cs => isIdentStart c && cs.all isIdentChar

/-- The embedding of the body of the `.env` reading loop (run_main.sh lines
35-39) on one line: read the key/value pair; if the key is non-empty and
does not start with `#`, the script attempts `export "$key=$value"`, which
places the pair in the environment exactly when the key is a valid bash
identifier and otherwise fails without effect (the loop continues either
way); other lines are skipped. -/
def processLine (l : List Char) : List (List Char × List Char) :=
  let k := (readKeyValue l).1
  if k ≠ [] ∧ k.head? ≠ some '#' then
    if isValidIdentifier k then [(k, (readKeyValue l).2)] else []
  else []

/-- The full `.env` loop: process each line in order and collect the exported
key/value pairs. -/
def envExports : List (List Char) → List (List Char × List Char)
  | [] => []
  | l :: rest => processLine l ++ envExports rest

/-- Abstract filesystem / environment configuration under which one invocation
of `run_main.sh` executes. -/
structure Config where
  /-- Result of the test `[ -d "$CODE_DIR" ]` (line 10). -/
  dirExists : Bool
  /-- whether `cd "$CODE_DIR"` succeeds (line 11). -/
  cdSucceeds : Bool
  /-- Result of the test `[ -f "$PYTHON_VENV" ]` (line 24). -/
  venvExists : Bool
  /-- Result of the test `[ -f .env ]` (line 33). -/
  envExists : Bool
  /-- the lines of `.env`, each as a character list. -/
  envLines : List (List Char)
  /-- Result of the test `[ -f "$script_path" ]` for `main.py` (line 57). -/
  scriptExists : Bool
  /-- exit code of `python3 main.py` (line 64). -/
  pythonExit : Nat
  /-- combined stdout/stderr of `python3 main.py`, appended to the log. -/
  pythonOut : String
  /-- Output of the date command at line 18 (local time). -/
  tsStart : String
  /-- Output of the UTC date command at line 62. -/
  tsScriptStart : String
  /-- Output of the UTC date command at line 66. -/
  tsScriptEnd : String
  /-- Output of the UTC date command at line 75. -/
  tsEnd : String

/-- Result of one invocation of `run_main.sh`: the process exit code, the
file operations performed on the log file in order, the variables exported
from `.env`, the exit codes of the python invocations performed (in order),
and the number of reads from the interactive standard input (the `read` in
the loop reads from `.env` via `< .env`, never from the terminal). -/
structure RunResult where
  exitCode : Nat
  ops : List FileOp
  exports : List (List Char × List Char)
  pythonRuns : List Nat
  stdinReads : Nat
deriving DecidableEq

/-- Value of `scripts_to_run` after line 51: the array is previously unset, so `+=`
makes it the one-element list `("main.py")`. -/
def scriptsToRun : List String := ["main.py"]

/-- Body of the `for script in "${scripts_to_run[@]}"` loop (lines 54-73) for
one script: if the file exists, log the markers and run python3 (appending its
output); otherwise log that the script was not found.  The loop never changes
the exit code of the wrapper. -/
def runOneScript (cfg : Config) (_script : String) : List FileOp × List Nat :=
  if cfg.scriptExists then
    ([FileOp.append Entry.runningFile,
      FileOp.append (Entry.startBanner true),
      FileOp.append (Entry.startingScript cfg.tsScriptStart),
      FileOp.append (Entry.pythonOutput cfg.pythonOut),
      FileOp.append (Entry.finishedScript cfg.tsScriptEnd),
      FileOp.append (Entry.endBanner true)], [cfg.pythonExit])
  else
    ([FileOp.append Entry.scriptNotFound], [])

/-- The whole `for` loop over `scripts_to_run`. -/
def runLoop (cfg : Config) : List FileOp × List Nat :=
  scriptsToRun.foldl
    (fun acc s =>
      let step := runOneScript cfg s
      (acc.1 ++ step.1, acc.2 ++ step.2))
    ([], [])

/-- The embedding of one invocation of `run_main.sh`.  Control flow follows
the script line by line: unconditional start banner (line 7); directory check
(lines 10-15); timestamped start marker (line 18); venv check (lines 24-30);
`.env` check and parsing loop (lines 33-44); script loop (lines 54-73);
final timestamped end marker and end banner (lines 75-76).  The script has no
`set -e` and never tests `$?` of `python3`, so after a successful `.env` load
it always reaches the final echos and exits with their status, 0. -/
def runMain (cfg : Config) : RunResult :=
  let ops0 : List FileOp := [FileOp.append (Entry.startBanner false)]
  if cfg.dirExists then
    if cfg.cdSucceeds then
      let ops1 := ops0 ++ [FileOp.append (Entry.startingRun cfg.tsStart)]
      if cfg.venvExists then
        let ops2 := ops1 ++ [FileOp.append Entry.activating]
        if cfg.envExists then
          { exitCode := 0
            ops := ops2 ++ (runLoop cfg).1 ++
              [FileOp.append (Entry.finishedRun cfg.tsEnd),
               FileOp.append (Entry.endBanner false)]
            exports := envExports cfg.envLines
            pythonRuns := (runLoop cfg).2
            stdinReads := 0 }
        else
          { exitCode := 1, ops := ops2 ++ [FileOp.append Entry.envMissing]
            exports := [], pythonRuns := [], stdinReads := 0 }
      else
        { exitCode := 1, ops := ops1 ++ [FileOp.append Entry.venvMissing]
          exports := [], pythonRuns := [], stdinReads := 0 }
    else
      { exitCode := 1, ops := ops0 ++ [FileOp.append Entry.cdFailed]
        exports := [], pythonRuns := [], stdinReads := 0 }
  else
    { exitCode := 1, ops := ops0 ++ [FileOp.append Entry.dirMissing]
      exports := [], pythonRuns := [], stdinReads := 0 }

/-- Modelled from the spec: the pipeline script `main.py` (Transformer and
Loader) is not under `src/`.  A Play Event per spec section 3:
played_at timestamp, track id/name, artist name(s), album name, duration. -/
structure PlayEvent where
  played_at : String
  track_id : String
  track_name : String
  artist_names : String
  album_name : String
  duration_ms : Nat
deriving DecidableEq

/-- The key the uniqueness invariant is about: `(played_at, track_id)`. -/
def eventKey (e : PlayEvent) : String × String := (e.played_at, e.track_id)

/-- Whether the play-history table already holds a row with the given
`(played_at, track_id)` key. -/
def hasKey (table : List PlayEvent) (k : String × String) : Bool :=
  table.any fun r => decide (eventKey r = k)

/-- Number of rows of the table with the given `(played_at, track_id)` key. -/
def countKey (table : List PlayEvent) (k : String × String) : Nat :=
  table.countP fun r => decide (eventKey r = k)

/-- Modelled from the spec: the Loader inserts one Play Event with an
operation that is a no-op if the `(played_at, track_id)` pair already exists
(insert-or-ignore), per spec section 4.3. -/
def insertEvent (table : List PlayEvent) (e : PlayEvent) : List PlayEvent :=
  if hasKey table (eventKey e) then table else table ++ [e]

/-- Modelled from the spec: the Loader inserts a sequence of Play Events in
order, each with the insert-or-ignore operation. -/
def loadEvents (table : List PlayEvent) (es : List PlayEvent) : List PlayEvent :=
  es.foldl insertEvent table

/-- Tabular query result, the model of a pandas DataFrame: a list of rows. -/
structure DataFrame where
  rows : List (List String)
deriving DecidableEq

/-- The model of `pd.DataFrame()`: an empty frame. -/
def emptyDataFrame : DataFrame := ⟨[]⟩

/-- The read-side helper of `src/visualization/common.ipynb`:
wraps `engine.connect()` + `pd.read_sql_query` (modelled together by the
oracle `runQuery`, whose `Except.error` case stands for any exception raised
during connection or query execution) in `try/except`; on success the query
result is returned, on any exception the error is printed and an empty
DataFrame is returned instead of re-raising. -/
def __execute_sql_query (runQuery : String → Except String DataFrame)
    (query : String) : DataFrame :=
  match runQuery query with
  | Except.ok df => df
  | Except.error _ => emptyDataFrame

/-- A Python exception raised by the notebook setup cells. -/
inductive NotebookError where
  | attributeError (attr : String)
deriving DecidableEq

/-- The setup cell of `common.ipynb`:
`DATABASE_URL = os.getenv("DATABASE_URL").strip()` then
`schema_name = os.getenv("SCHEMA_NAME").strip()`.  `os.getenv` returns
`None` when the variable is unset, and `None.strip()` raises
`AttributeError`; otherwise both values are whitespace-stripped. -/
def setupCell (getenv : String → Option String) :
    Except NotebookError (String × String) :=
  match getenv "DATABASE_URL" with
  | none => Except.error (NotebookError.attributeError "strip")
  | some dbUrl =>
    match getenv "SCHEMA_NAME" with
    | none => Except.error (NotebookError.attributeError "strip")
    | some schema => Except.ok (dbUrl.trim, schema.trim)

/-- The notebook executed top to bottom: the setup cell runs before any query
cell, and an exception there stops the run, so no query executes.  The result
pairs the outcome with the list of queries actually executed. -/
def runNotebook (getenv : String → Option String)
    (runQuery : String → Except String DataFrame) (queries : List String) :
    Except NotebookError (List DataFrame) × List String :=
  match setupCell getenv with
  | Except.error e => (Except.error e, [])
  | Except.ok _ => (Except.ok (queries.map (__execute_sql_query runQuery)), queries)

/-- Check whether a file operation is an append of some entry. -/
def FileOp.isAppend : FileOp → Bool
  | FileOp.append _ => true
  | FileOp.truncate _ => false

/-- Check whether a file operation appends the timestamped
start marker of the whole wrapper run (line 18). -/
def isStartRunMarker : FileOp → Bool
  | FileOp.append (Entry.startingRun _) => true
  | _ => false

/-- Check whether a file operation appends the timestamped
end marker of the whole wrapper run (line 75). -/
def isFinishRunMarker : FileOp → Bool
  | FileOp.append (Entry.finishedRun _) => true
  | _ => false

/-- A configuration in which everything the wrapper checks for exists and
`main.py` exits with status 1, i.e. the pipeline fails. -/
def cfgPythonFails : Config :=
  { dirExists := true, cdSucceeds := true, venvExists := true, envExists := true
    envLines := [], scriptExists := true, pythonExit := 1
    pythonOut := "Traceback: AuthError\n", tsStart := "2025-01-01 00:00:01"
    tsScriptStart := "2025-01-01 00:00:02", tsScriptEnd := "2025-01-01 00:00:03"
    tsEnd := "2025-01-01 00:00:04" }

/-- A configuration in which the code directory does not exist. -/
def cfgNoDir : Config :=
  { dirExists := false, cdSucceeds := false, venvExists := false, envExists := false
    envLines := [], scriptExists := false, pythonExit := 0, pythonOut := ""
    tsStart := "2025-01-01 00:00:01", tsScriptStart := "2025-01-01 00:00:02"
    tsScriptEnd := "2025-01-01 00:00:03", tsEnd := "2025-01-01 00:00:04" }

/-- A configuration in which the `.env` file is missing but everything
else exists. -/
def cfgNoEnv : Config :=
  { dirExists := true, cdSucceeds := true, venvExists := true, envExists := false
    envLines := [], scriptExists := true, pythonExit := 0, pythonOut := ""
    tsStart := "2025-01-01 00:00:01", tsScriptStart := "2025-01-01 00:00:02"
    tsScriptEnd := "2025-01-01 00:00:03", tsEnd := "2025-01-01 00:00:04" }

/-- C1 counterexample: with the directory, venv and `.env` all present but
`python3 main.py` exiting with status 1 (a fatal pipeline failure), the
wrapper still exits with code 0 — the script never tests the exit status of
`python3`, so a failing `main.py` is not reflected in the process exit code. -/
theorem runMain_exit_zero_despite_python_failure :
    cfgPythonFails.pythonExit = 1
    ∧ (runMain cfgPythonFails).pythonRuns = [1]
    ∧ (runMain cfgPythonFails).exitCode = 0 := by
  refine ⟨rfl, rfl, rfl⟩

/-- C1 (amended): the exit code of `run_main.sh` is 0 exactly when the code
directory exists, the `cd` into it succeeds, the venv activation script
exists and the `.env` file exists; the exit status of `main.py` — and whether
`main.py` exists at all — has no effect on the wrapper's exit code. -/
theorem runMain_exitCode_zero_iff (cfg : Config) :
    (runMain cfg).exitCode = 0 ↔
      (cfg.dirExists = true ∧ cfg.cdSucceeds = true
        ∧ cfg.venvExists = true ∧ cfg.envExists = true) := by
  cases hd : cfg.dirExists <;> cases hc : cfg.cdSucceeds <;>
    cases hv : cfg.venvExists <;> cases he : cfg.envExists <;>
      simp [runMain, hd, hc, hv, he]

/-- C3: when the `.env` file is absent, `run_main.sh` terminates with a
non-zero exit code and never invokes `python3`, so the pipeline (and hence
any network call it would make) is never started. -/
theorem env_missing_fatal_before_python (cfg : Config)
    (h : cfg.envExists = false) :
    (runMain cfg).exitCode = 1 ∧ (runMain cfg).pythonRuns = [] := by
  cases hd : cfg.dirExists <;> cases hc : cfg.cdSucceeds <;>
    cases hv : cfg.venvExists <;>
      simp [runMain, hd, hc, hv, h]

/-- C3 witness: the theorem applied to the concrete configuration whose
`.env` is missing. -/
theorem env_missing_fatal_before_python_witness :
    cfgNoEnv.envExists = false
    ∧ (runMain cfgNoEnv).exitCode = 1 ∧ (runMain cfgNoEnv).pythonRuns = [] :=
  ⟨rfl, env_missing_fatal_before_python cfgNoEnv rfl⟩

/-- C7: one invocation of the wrapper runs `python3 main.py` at most once,
whatever the configuration and whatever exit status the script returns:
`scripts_to_run` holds the single element `main.py` and the loop body runs
`python3` once (or not at all when the file is missing), with no retry. -/
theorem python_runs_at_most_once (cfg : Config) :
    (runMain cfg).pythonRuns.length ≤ 1 := by
  cases hd : cfg.dirExists <;> cases hc : cfg.cdSucceeds <;>
    cases hv : cfg.venvExists <;> cases he : cfg.envExists <;>
      cases hs : cfg.scriptExists <;>
        simp [runMain, runLoop, runOneScript, scriptsToRun, hd, hc, hv, he, hs]

/-- Applying a sequence of file operations that are all appends extends the
previous contents on the right and never discards them. -/
theorem applyOps_of_all_append {ops : List FileOp}
    (h : ops.all FileOp.isAppend = true) (content : String) :
    ∃ s, applyOps content ops = content ++ s := by
  induction ops generalizing content with
  | nil => exact ⟨"", (String.append_empty content).symm⟩
  | cons op rest ih =>
    rw [List.all_cons, Bool.and_eq_true] at h
    cases op with
    | append e =>
      obtain ⟨s, hs⟩ := ih h.2 (content ++ e.render)
      exact ⟨e.render ++ s, by rw [applyOps, hs, String.append_assoc]⟩
    | truncate e => simp [FileOp.isAppend] at h

/-- Every file operation the wrapper performs on the log file is an append:
all redirections in the script use `>>`. -/
theorem runMain_ops_all_append (cfg : Config) :
    (runMain cfg).ops.all FileOp.isAppend = true := by
  cases hd : cfg.dirExists <;> cases hc : cfg.cdSucceeds <;>
    cases hv : cfg.venvExists <;> cases he : cfg.envExists <;>
      cases hs : cfg.scriptExists <;>
        simp [runMain, runLoop, runOneScript, scriptsToRun, FileOp.isAppend,
          hd, hc, hv, he, hs]

/-- C5: for any invocation and any previous log contents, the new log
contents extend the old ones — the old contents are an unchanged prefix —
and the wrapper performs no read from the interactive standard input. -/
theorem log_writes_append_only (cfg : Config) (old : String) :
    (∃ s, applyOps old (runMain cfg).ops = old ++ s)
    ∧ (runMain cfg).stdinReads = 0 := by
  refine ⟨applyOps_of_all_append (runMain_ops_all_append cfg) old, ?_⟩
  cases hd : cfg.dirExists <;> cases hc : cfg.cdSucceeds <;>
    cases hv : cfg.venvExists <;> cases he : cfg.envExists <;>
      simp [runMain, hd, hc, hv, he]

/-- C6 counterexample: when the code directory is missing — a fatal error,
exit code 1 — the log receives neither a timestamped start marker nor a
timestamped end marker for the invocation; only the untimestamped start
banner and the error line are appended. -/
theorem fatal_run_lacks_timestamped_markers :
    (runMain cfgNoDir).exitCode = 1
    ∧ (runMain cfgNoDir).ops.any isStartRunMarker = false
    ∧ (runMain cfgNoDir).ops.any isFinishRunMarker = false := by
  refine ⟨rfl, rfl, rfl⟩

/-- C6 (amended): the untimestamped start banner is appended on every
invocation; the timestamped start marker is appended exactly when the code
directory exists and the `cd` succeeds; the timestamped end marker is
appended exactly when no fatal error occurs, i.e. when the directory, the
venv activation script and the `.env` file are all present. -/
theorem log_markers_on_success (cfg : Config) :
    FileOp.append (Entry.startBanner false) ∈ (runMain cfg).ops
    ∧ ((runMain cfg).ops.any isStartRunMarker = true ↔
        (cfg.dirExists = true ∧ cfg.cdSucceeds = true))
    ∧ ((runMain cfg).ops.any isFinishRunMarker = true ↔
        (cfg.dirExists = true ∧ cfg.cdSucceeds = true
          ∧ cfg.venvExists = true ∧ cfg.envExists = true)) := by
  cases hd : cfg.dirExists <;> cases hc : cfg.cdSucceeds <;>
    cases hv : cfg.venvExists <;> cases he : cfg.envExists <;>
      cases hs : cfg.scriptExists <;>
        simp [runMain, runLoop, runOneScript, scriptsToRun,
          isStartRunMarker, isFinishRunMarker, hd, hc, hv, he, hs]

/-- A valid bash identifier is non-empty. -/
theorem isValidIdentifier_ne_nil (k : List Char)
    (h : isValidIdentifier k = true) : k ≠ [] := by
  cases k with
  | nil => exact absurd h (by decide)
  | cons c cs => exact List.cons_ne_nil c cs

/-- A valid bash identifier does not start with `#`. -/
theorem isValidIdentifier_head (k : List Char)
    (h : isValidIdentifier k = true) : k.head? ≠ some '#' := by
  cases k with
  | nil => exact absurd h (by decide)
  | cons c cs =>
    rw [List.head?_cons]
    intro hc
    rw [Option.some.injEq] at hc
    simp only [isValidIdentifier, Bool.and_eq_true] at h
    rw [hc] at h
    exact absurd h.1 (by decide)

/-- A valid bash identifier contains no `=`. -/
theorem isValidIdentifier_no_eq (k : List Char)
    (h : isValidIdentifier k = true) : '=' ∉ k := by
  cases k with
  | nil => exact List.not_mem_nil _
  | cons c cs =>
    simp only [isValidIdentifier, Bool.and_eq_true] at h
    intro hm
    rcases List.mem_cons.mp hm with hm | hm
    · rw [← hm] at h
      exact absurd h.1 (by decide)
    · exact absurd (List.all_eq_true.mp h.2 '=' hm) (by decide)

/-- Membership in the result of processing one `.env` line: a pair is in the
resulting environment exactly when the line reads to that pair and its key
is a valid bash identifier (for such keys the script's own guard — key
non-empty, not starting with `#` — holds automatically). -/
theorem mem_processLine (l k v : List Char) :
    (k, v) ∈ processLine l ↔
      (readKeyValue l = (k, v) ∧ isValidIdentifier k = true) := by
  simp only [processLine]
  split
  next h0 =>
    split
    next hval =>
      constructor
      · intro hm
        rw [List.mem_singleton] at hm
        have hk : k = (readKeyValue l).1 := congrArg Prod.fst hm
        have hv : v = (readKeyValue l).2 := congrArg Prod.snd hm
        refine ⟨?_, ?_⟩
        · rw [hk, hv]
        · rw [hk]
          exact hval
      · rintro ⟨hs, -⟩
        rw [List.mem_singleton, ← hs]
    next hval =>
      constructor
      · intro hm
        exact absurd hm (List.not_mem_nil _)
      · rintro ⟨hs, hv⟩
        have hk : (readKeyValue l).1 = k := congrArg Prod.fst hs
        refine absurd ?_ hval
        rw [hk]
        exact hv
  next h0 =>
    constructor
    · intro hm
      exact absurd hm (List.not_mem_nil _)
    · rintro ⟨hs, hv⟩
      have hk : (readKeyValue l).1 = k := congrArg Prod.fst hs
      refine absurd ⟨?_, ?_⟩ h0
      · rw [hk]
        exact isValidIdentifier_ne_nil k hv
      · rw [hk]
        exact isValidIdentifier_head k hv

/-- Processing a blank `.env` line exports nothing. -/
theorem processLine_nil : processLine [] = [] := rfl

/-- Processing a comment `.env` line (first character `#`) exports nothing:
the key field then also starts with `#` and the guard skips the line. -/
theorem processLine_comment (cs : List Char) : processLine ('#' :: cs) = [] := by
  have hne : ('#' : Char) ≠ '=' := by decide
  simp [processLine, readKeyValue, splitFirstEq, hne]

/-- C4 counterexample: the line `2A=x` has a non-empty key field `2A` that
does not begin with `#`, yet nothing reaches the environment: bash rejects
`2A` as not a valid identifier, so `export "$key=$value"` fails without
effect and the loop continues. -/
theorem env_nonempty_key_not_exported :
    (splitFirstEq ['2', 'A', '=', 'x']).1 ≠ []
    ∧ (splitFirstEq ['2', 'A', '=', 'x']).1.head? ≠ some '#'
    ∧ envExports [['2', 'A', '=', 'x']] = [] := by
  refine ⟨by decide, by decide, by decide⟩

/-- C4 (amended): the `.env` loop attempts an export exactly for the lines
whose key field is non-empty and does not start with `#` — comment lines and
blank lines are skipped and export nothing — but a key/value pair actually
enters the process environment exactly when some line reads (per bash
`IFS='=' read`, a lone trailing `=` consumed) to that pair and its key is a
valid bash identifier; for any other attempted key, `export` fails and sets
nothing. -/
theorem env_export_exactly (lines : List (List Char)) :
    (∀ k v, ((k, v) ∈ envExports lines ↔
      ∃ l ∈ lines, readKeyValue l = (k, v) ∧ isValidIdentifier k = true))
    ∧ (∀ l ∈ lines, (l.head? = some '#' ∨ l = []) → processLine l = []) := by
  constructor
  · intro k v
    induction lines with
    | nil => simp [envExports]
    | cons l rest ih =>
      rw [envExports, List.mem_append, ih, mem_processLine]
      constructor
      · rintro (h | ⟨l0, hl0, h⟩)
        · exact ⟨l, List.mem_cons_self l rest, h⟩
        · exact ⟨l0, List.mem_cons_of_mem l hl0, h⟩
      · rintro ⟨l0, hl0, h⟩
        rcases List.mem_cons.mp hl0 with rfl | hm
        · exact Or.inl h
        · exact Or.inr ⟨l0, hm, h⟩
  · rintro l - (hc | rfl)
    · rcases l with - | ⟨c, cs⟩
      · exact processLine_nil
      · rw [List.head?_cons, Option.some.injEq] at hc
        rw [hc]
        exact processLine_comment cs
    · exact processLine_nil

/-- C4 witness: on the concrete three-line file `A=1`, `#x=2`, blank, the
theorem yields the export of `(A, 1)` and that the comment and blank lines
export nothing. -/
theorem env_export_exactly_witness :
    (['A'], ['1']) ∈ envExports [['A', '=', '1'], ['#', 'x', '=', '2'], []]
    ∧ processLine ['#', 'x', '=', '2'] = []
    ∧ processLine [] = [] :=
  ⟨((env_export_exactly [['A', '=', '1'], ['#', 'x', '=', '2'], []]).1
      ['A'] ['1']).mpr
      ⟨['A', '=', '1'], by decide, by decide, by decide⟩,
   (env_export_exactly [['A', '=', '1'], ['#', 'x', '=', '2'], []]).2
      ['#', 'x', '=', '2'] (by decide) (Or.inl rfl),
   (env_export_exactly [['A', '=', '1'], ['#', 'x', '=', '2'], []]).2
      [] (by decide) (Or.inr rfl)⟩

/-- Splitting a line whose key part contains no `=` cuts exactly at the
first `=`: the raw remainder, including any further `=` characters, is the
right component. -/
theorem splitFirstEq_append (k v : List Char) (hk : '=' ∉ k) :
    splitFirstEq (k ++ '=' :: v) = (k, v) := by
  induction k with
  | nil => simp [splitFirstEq]
  | cons c cs ih =>
    have hc : c ≠ '=' := fun h => hk (h ▸ List.mem_cons_self c cs)
    have hcs : '=' ∉ cs := fun h => hk (List.mem_cons_of_mem c h)
    simp [splitFirstEq, hc, ih hcs]

/-- A remainder that is not a single `=`-free segment closed by one trailing
`=` is assigned to the value verbatim by the read. -/
theorem dropLoneTrailingEq_eq_self (v : List Char)
    (hv : ¬(v.getLast? = some '=' ∧ '=' ∉ v.dropLast)) :
    dropLoneTrailingEq v = v := by
  unfold dropLoneTrailingEq
  rw [if_neg hv]

/-- C10 counterexample: the line `K=a=` has an `=` inside its value part,
yet the exported value is `a`, not the full remainder `a=`: bash `read`
consumes a lone trailing delimiter when assigning the last variable. -/
theorem env_trailing_eq_dropped :
    envExports [['K', '=', 'a', '=']] = [(['K'], ['a'])]
    ∧ (['K'], ['a', '=']) ∉ envExports [['K', '=', 'a', '=']] := by
  refine ⟨by decide, by decide⟩

/-- C10 (amended): the wrapper splits only at the first `=` and the exported
value keeps every later `=` character, except that bash `read` consumes a
lone trailing `=` — a remainder that ends in `=` and holds no other `=`, as
in the line `K=a=`.  For every valid-identifier key and every remainder not
of that shape — `KEY=a=b` included — the full remainder is exported as the
value. -/
theorem env_value_keeps_interior_eq (k v : List Char)
    (hk : isValidIdentifier k = true)
    (hv : ¬(v.getLast? = some '=' ∧ '=' ∉ v.dropLast)) :
    envExports [k ++ '=' :: v] = [(k, v)] := by
  have hs : readKeyValue (k ++ '=' :: v) = (k, v) := by
    unfold readKeyValue
    rw [splitFirstEq_append k v (isValidIdentifier_no_eq k hk)]
    simp [dropLoneTrailingEq_eq_self v hv]
  simp [envExports, processLine, hs, isValidIdentifier_ne_nil k hk,
    isValidIdentifier_head k hk, hk]

/-- C10 witness: the line `KEY=a=b` exports the variable `KEY` with value
`a=b`, the interior `=` preserved. -/
theorem env_value_keeps_interior_eq_witness :
    envExports [['K', 'E', 'Y', '=', 'a', '=', 'b']] =
      [(['K', 'E', 'Y'], ['a', '=', 'b'])] :=
  env_value_keeps_interior_eq ['K', 'E', 'Y'] ['a', '=', 'b']
    (by decide) (by decide)

/-- Unfolding lemma: loading no events leaves the table unchanged. -/
theorem loadEvents_nil (t : List PlayEvent) : loadEvents t [] = t := rfl

/-- Unfolding lemma: loading a first event then the rest. -/
theorem loadEvents_cons (t : List PlayEvent) (e : PlayEvent)
    (es : List PlayEvent) :
    loadEvents t (e :: es) = loadEvents (insertEvent t e) es := rfl

/-- Inserting one event: a key is present afterwards exactly when it was
present before or is the key of the inserted event. -/
theorem hasKey_insertEvent (t : List PlayEvent) (e : PlayEvent)
    (k : String × String) :
    hasKey (insertEvent t e) k =
      (hasKey t k || decide (eventKey e = k)) := by
  unfold insertEvent
  cases h : hasKey t (eventKey e) with
  | true =>
    rw [if_pos rfl]
    by_cases hek : eventKey e = k
    · subst hek
      simp [h]
    · simp [hek]
  | false =>
    rw [if_neg Bool.false_ne_true]
    simp [hasKey, List.any_append]

/-- A key present in the table stays present through a whole load. -/
theorem hasKey_loadEvents_of (t : List PlayEvent) (es : List PlayEvent)
    (k : String × String) (h : hasKey t k = true) :
    hasKey (loadEvents t es) k = true := by
  induction es generalizing t with
  | nil => exact h
  | cons e rest ih =>
    rw [loadEvents_cons]
    exact ih _ (by rw [hasKey_insertEvent, h, Bool.true_or])

/-- After loading a batch, the key of every event of the batch is present. -/
theorem hasKey_loadEvents_mem (t : List PlayEvent) (es : List PlayEvent)
    (e : PlayEvent) (h : e ∈ es) :
    hasKey (loadEvents t es) (eventKey e) = true := by
  induction es generalizing t with
  | nil => exact absurd h (List.not_mem_nil e)
  | cons a rest ih =>
    rw [loadEvents_cons]
    rcases List.mem_cons.mp h with rfl | hm
    · exact hasKey_loadEvents_of _ rest _
        (by rw [hasKey_insertEvent]; simp)
    · exact ih _ hm

/-- Loading a batch whose keys are all already present is a no-op. -/
theorem loadEvents_no_op (t : List PlayEvent) (es : List PlayEvent)
    (h : ∀ e ∈ es, hasKey t (eventKey e) = true) :
    loadEvents t es = t := by
  induction es with
  | nil => rfl
  | cons a rest ih =>
    rw [loadEvents_cons]
    have ha : insertEvent t a = t := by
      unfold insertEvent
      rw [if_pos (h a (List.mem_cons_self a rest))]
    rw [ha]
    exact ih fun e he => h e (List.mem_cons_of_mem a he)

/-- A key is present exactly when its row count is positive. -/
theorem hasKey_iff_countKey_pos (t : List PlayEvent) (k : String × String) :
    hasKey t k = true ↔ 0 < countKey t k := by
  unfold hasKey countKey
  rw [List.any_eq_true, List.countP_pos_iff]

/-- Inserting one event never pushes a key's row count above one. -/
theorem countKey_insertEvent_le (t : List PlayEvent) (e : PlayEvent)
    (k : String × String) (h : countKey t k ≤ 1) :
    countKey (insertEvent t e) k ≤ 1 := by
  unfold insertEvent
  cases hk : hasKey t (eventKey e) with
  | true =>
    rw [if_pos rfl]
    exact h
  | false =>
    rw [if_neg Bool.false_ne_true]
    unfold countKey at h ⊢
    rw [List.countP_append]
    by_cases hek : eventKey e = k
    · subst hek
      have h0 : t.countP (fun r => decide (eventKey r = eventKey e)) = 0 := by
        rw [List.countP_eq_zero]
        intro a ha
        simp only [decide_eq_true_eq]
        intro hae
        have : hasKey t (eventKey e) = true := by
          unfold hasKey
          rw [List.any_eq_true]
          exact ⟨a, ha, by simp [hae]⟩
        rw [hk] at this
        exact Bool.false_ne_true this
      rw [h0]
      simp [List.countP_cons]
    · have h1 : List.countP (fun r => decide (eventKey r = k)) [e] = 0 := by
        simp [List.countP_cons, hek]
      rw [h1]
      simpa using h

/-- Loading any batch preserves the at-most-one-row-per-key invariant. -/
theorem countKey_loadEvents_le (t : List PlayEvent) (es : List PlayEvent)
    (k : String × String) (h : countKey t k ≤ 1) :
    countKey (loadEvents t es) k ≤ 1 := by
  induction es generalizing t with
  | nil => exact h
  | cons e rest ih =>
    rw [loadEvents_cons]
    exact ih _ (countKey_insertEvent_le t e k h)

/-- C2: starting from a table satisfying the uniqueness invariant (at most
one row per `(played_at, track_id)` key), loading the same batch of Play
Events twice gives exactly the same table as loading it once — the rerun
creates no rows — and the resulting table holds exactly one row for the key
of every event of the batch. -/
theorem loader_idempotent_unique (t : List PlayEvent) (es : List PlayEvent)
    (h : ∀ k, countKey t k ≤ 1) :
    loadEvents (loadEvents t es) es = loadEvents t es
    ∧ ∀ e ∈ es,
        countKey (loadEvents (loadEvents t es) es) (eventKey e) = 1 := by
  have hid : loadEvents (loadEvents t es) es = loadEvents t es :=
    loadEvents_no_op _ _ fun e he => hasKey_loadEvents_mem t es e he
  refine ⟨hid, fun e he => ?_⟩
  rw [hid]
  have hle : countKey (loadEvents t es) (eventKey e) ≤ 1 :=
    countKey_loadEvents_le t es _ (h _)
  have hpos : 0 < countKey (loadEvents t es) (eventKey e) :=
    (hasKey_iff_countKey_pos _ _).mp (hasKey_loadEvents_mem t es e he)
  omega

/-- A concrete Play Event used in witnesses. -/
def ev1 : PlayEvent :=
  ⟨"2025-01-01T00:03:20Z", "track-1", "Song A", "Artist A", "Album A", 200000⟩

/-- A second concrete Play Event: same track played at a later timestamp. -/
def ev2 : PlayEvent :=
  ⟨"2025-01-01T00:10:00Z", "track-1", "Song A", "Artist A", "Album A", 200000⟩

/-- C2 witness: the theorem applied to the empty table and the concrete
batch holding two plays of the same track at different timestamps. -/
theorem loader_idempotent_unique_witness :
    loadEvents (loadEvents [] [ev1, ev2]) [ev1, ev2] = loadEvents [] [ev1, ev2]
    ∧ countKey (loadEvents (loadEvents [] [ev1, ev2]) [ev1, ev2])
        (eventKey ev1) = 1 :=
  ⟨(loader_idempotent_unique [] [ev1, ev2] fun k => by simp [countKey]).1,
   (loader_idempotent_unique [] [ev1, ev2] fun k => by simp [countKey]).2
      ev1 (List.mem_cons_self ev1 [ev2])⟩

/-- C8: for every SQL query string and any behaviour of the database engine,
the read-side helper returns a DataFrame (it is a total function): the
query's result table when execution succeeds, and the empty DataFrame —
instead of propagating the exception — when connection or query execution
fails. -/
theorem execute_sql_query_contract
    (runQuery : String → Except String DataFrame) (query : String) :
    (∀ df, runQuery query = Except.ok df →
      __execute_sql_query runQuery query = df)
    ∧ (∀ msg, runQuery query = Except.error msg →
      __execute_sql_query runQuery query = emptyDataFrame) := by
  constructor <;> intro x hx <;> simp [__execute_sql_query, hx]

/-- A one-cell result table used in witnesses. -/
def dfOne : DataFrame := ⟨[["42"]]⟩

/-- A database oracle whose every query succeeds with `dfOne`. -/
def okOracle : String → Except String DataFrame := fun _ => Except.ok dfOne

/-- A database oracle whose every query raises a connection error. -/
def errOracle : String → Except String DataFrame :=
  fun _ => Except.error "connection refused"

/-- C8 witness: the contract applied to a succeeding and to a failing
concrete oracle on a concrete query. -/
theorem execute_sql_query_contract_witness :
    __execute_sql_query okOracle "SELECT 1" = dfOne
    ∧ __execute_sql_query errOracle "SELECT 1" = emptyDataFrame :=
  ⟨(execute_sql_query_contract okOracle "SELECT 1").1 dfOne rfl,
   (execute_sql_query_contract errOracle "SELECT 1").2 "connection refused" rfl⟩

/-- C9: if `DATABASE_URL` or `SCHEMA_NAME` is unset in the environment, the
notebook setup raises an AttributeError (calling `.strip()` on the `None`
returned by `os.getenv`), so the run fails at startup and the list of SQL
queries actually executed is empty. -/
theorem notebook_missing_env_fatal (getenv : String → Option String)
    (runQuery : String → Except String DataFrame) (queries : List String)
    (h : getenv "DATABASE_URL" = none ∨ getenv "SCHEMA_NAME" = none) :
    (runNotebook getenv runQuery queries).1 =
      Except.error (NotebookError.attributeError "strip")
    ∧ (runNotebook getenv runQuery queries).2 = [] := by
  rcases h with h | h
  · simp [runNotebook, setupCell, h]
  · cases hd : getenv "DATABASE_URL" with
    | none => simp [runNotebook, setupCell, hd]
    | some u => simp [runNotebook, setupCell, hd, h]

/-- An environment in which no variable is set. -/
def noGetenv : String → Option String := fun _ => none

/-- C9 witness: the theorem applied to the empty environment and a concrete
query list. -/
theorem notebook_missing_env_fatal_witness :
    noGetenv "DATABASE_URL" = none
    ∧ (runNotebook noGetenv okOracle ["SELECT 1"]).1 =
        Except.error (NotebookError.attributeError "strip")
    ∧ (runNotebook noGetenv okOracle ["SELECT 1"]).2 = [] :=
  ⟨rfl, notebook_missing_env_fatal noGetenv okOracle ["SELECT 1"] (Or.inl rfl)⟩

end SpotifyETL
